import Mathlib

/-!
Verification of the metric-collection-and-threshold-classification core of
pymotdstats (src/pymotdstats.py), shallowly embedded in Lean 4.

Conventions of the embedding:
* Python integers are `Int` (arbitrary precision); kernel counters are `Nat`.
* Python true division `/` is exact division in `ℚ`, and `int(...)` applied to
  a rational truncates toward zero (`pyIntQ`).
* Fallible Python operations (list indexing, `int()` on a string, an order
  comparison between a string and an integer) run in `Except PyError`.
* A probed file or external tool is an `Option (List String)`: `none` models
  `FileNotFoundError` (the tool or file is absent), `some lines` is its
  content or output split into lines.
-/

/-- Python runtime errors that the embedded code can raise. -/
inductive PyError
  | indexError
  | valueError
  | typeError
  deriving DecidableEq, Repr

deriving instance DecidableEq for Except

/-- Python list indexing `l[i]` for `i ≥ 0`: `IndexError` when out of range. -/
def pyIdx (l : List α) (i : Nat) : Except PyError α :=
  match l[i]? with
  | some a => .ok a
  | none => .error .indexError

/-- Python whitespace for `str.split()` with no separator:
space, tab, newline, carriage return, vertical tab, form feed. -/
def pyIsSpace (c : Char) : Bool :=
  c = ' ' || c = '\t' || c = '\n' || c = '\r' || c.toNat = 11 || c.toNat = 12

/-- Python `str.strip()` on a character list: remove leading and trailing
whitespace. -/
def pyStrip (cs : List Char) : List Char :=
  ((cs.dropWhile pyIsSpace).reverse.dropWhile pyIsSpace).reverse

/-- Helper for `str.split()` with no separator: accumulate the current word
(in reverse) while scanning. -/
def wordsAux : List Char → List Char → List (List Char)
  | [], cur => if cur.isEmpty then [] else [cur.reverse]
  | c :: rest, cur =>
      if pyIsSpace c then
        if cur.isEmpty then wordsAux rest []
        else cur.reverse :: wordsAux rest []
      else wordsAux rest (c :: cur)

/-- Python `str.split()` with no separator: split on whitespace runs,
discarding empty pieces. -/
def pySplit (s : String) : List String :=
  (wordsAux s.toList []).map (fun w => (⟨w⟩ : String))

/-- Python `str.split(sep)` for a one-character separator: split on every
occurrence, keeping empty pieces (the result is never empty). -/
def splitChar (sep : Char) : List Char → List (List Char)
  | [] => [[]]
  | c :: rest =>
      let r := splitChar sep rest
      if c = sep then [] :: r
      else (c :: r.headD []) :: r.tail

/-- Python `str.startswith(pre)`. -/
def pyStartsWith (s pre : String) : Bool :=
  decide (s.toList.take pre.toList.length = pre.toList)

/-- Numeric value of a list of decimal digits. -/
def digitsVal (l : List Char) : Nat :=
  l.foldl (fun a c => a * 10 + (c.toNat - 48)) 0

/-- Python `int(s)` on a string: optional surrounding whitespace, optional
sign, then a nonempty run of decimal digits; `none` models `ValueError`.
(Python's underscore digit separators and non-ASCII digits are not
modelled; no claim depends on them.) -/
def pyInt? (s : String) : Option Int :=
  match pyStrip s.toList with
  | [] => none
  | '+' :: rest =>
      if rest ≠ [] ∧ rest.all Char.isDigit then some (digitsVal rest) else none
  | '-' :: rest =>
      if rest ≠ [] ∧ rest.all Char.isDigit then some (-(digitsVal rest : Int))
      else none
  | l =>
      if l.all Char.isDigit then some (digitsVal l) else none

/-- Python `int(s)` in the error monad: `ValueError` when `s` does not parse. -/
def pyIntE (s : String) : Except PyError Int :=
  match pyInt? s with
  | some v => .ok v
  | none => .error .valueError

/-- Python `int(q)` on a (model of a) float value: truncation toward zero. -/
def pyIntQ (q : ℚ) : ℤ :=
  if 0 ≤ q then ⌊q⌋ else ⌈q⌉

/-- The `Protocol` enumeration of the source: tcp, tcp6, udp, udp6. -/
inductive Protocol
  | tcp
  | tcp6
  | udp
  | udp6
  deriving DecidableEq, Repr

/-- The string value backing each `Protocol` member. -/
def Protocol.value : Protocol → String
  | .tcp => "tcp"
  | .tcp6 => "tcp6"
  | .udp => "udp"
  | .udp6 => "udp6"

/-- `Protocol.from_value`: the member whose value equals the string, else
`None` (the source iterates over the members comparing `p.value`). -/
def Protocol.from_value (s : String) : Option Protocol :=
  if s = "tcp" then some .tcp
  else if s = "tcp6" then some .tcp6
  else if s = "udp" then some .udp
  else if s = "udp6" then some .udp6
  else none

/-- `Protocol.__lt__`: comparison of the backing string values (Python
compares strings lexicographically by code point, which is exactly Lean's
`<` on the underlying character lists). -/
def Protocol.ltB (a b : Protocol) : Bool :=
  decide (a.value.toList < b.value.toList)

/-- `Protocol.__hash__`: the hash of the backing string value. -/
def Protocol.hashVal (p : Protocol) : UInt64 :=
  hash p.value

/-- A monitored or observed port: a (port number, protocol) pair as built at
`ports_to_monitor` in the source. -/
abbrev Port := Int × Protocol

/-- Terminal colors driving severity rendering (`TermColor` in the source;
the bold attribute is presentation-only and not modelled). -/
inductive Color
  | red
  | orange
  | green
  deriving DecidableEq, Repr

/-- A Python value that is either an `int` or a `str`; `swap_perc` and
`swap_used` hold `'---'` (a string) when `SwapTotal` is zero. -/
inductive IntOrStr
  | int (v : Int)
  | str (s : String)
  deriving DecidableEq, Repr

/-- Python `x >= c` for `x` an int-or-string and `c` an int: a `TypeError`
when `x` is a string (Python 3 forbids `str >= int`). -/
def pyGe (x : IntOrStr) (c : Int) : Except PyError Bool :=
  match x with
  | .int v => .ok (decide (c ≤ v))
  | .str _ => .error .typeError

/-- The threshold test of `add_memory_row` (lines 447-452) restricted to an
integer percent; the identical test colors each disk row (lines 511-515 first
branch shape and 589-594): red when percent ≥ critical, else orange when
percent ≥ warning, else green. -/
def rowColor (warn crit v : Int) : Color :=
  if crit ≤ v then .red
  else if warn ≤ v then .orange
  else .green

/-- The threshold test of `add_memory_row` on a possibly-string percent, with
Python's dynamic comparison: `TypeError` when the percent is a string. -/
def rowColorE (warn crit : Int) (p : IntOrStr) : Except PyError Color := do
  if (← pyGe p crit) then pure .red
  else if (← pyGe p warn) then pure .orange
  else pure .green

/-- Severity tier of the specification: normal, warning or critical. -/
inductive Sev
  | normal
  | warning
  | critical
  deriving DecidableEq, Repr

/-- Modelled from the spec: `classify(value, warn, crit)`: critical iff
value ≥ crit; else warning iff value ≥ warn; else normal. -/
def classify (v warn crit : Int) : Sev :=
  if crit ≤ v then .critical
  else if warn ≤ v then .warning
  else .normal

/-- The color a severity tier renders as. -/
def colorOfSev : Sev → Color
  | .normal => .green
  | .warning => .orange
  | .critical => .red

/-- Numeric rank of a severity tier, for taking the worst. -/
def sevRank : Sev → Nat
  | .normal => 0
  | .warning => 1
  | .critical => 2

/-- Worst of two severity tiers. -/
def sevMax (a b : Sev) : Sev :=
  if sevRank a ≤ sevRank b then b else a

/-- Pseudo-filesystem device names skipped by `get_mount_points`. -/
def ignore_words : List String := ["debugfs", "devpts", "proc", "sysfs", "tmpfs"]

/-- The comment test of `get_mount_points`: the regex `^\s*#` matches the
line (optional leading whitespace, then `#`). -/
def isFstabComment (line : String) : Bool :=
  (line.toList.dropWhile (fun c => pyIsSpace c)).headD ' ' = '#'

/-- Loop body of `get_mount_points` (lines 252-273) for one fstab line. For
a non-comment line with at least two fields, the source tests
`array[0] not in ignore_words and array[2] != 'swap'` with short-circuit
evaluation, so `array[2]` is read (possibly raising `IndexError`) only when
`array[0]` passes. -/
def mountPointsStep (acc : Finset String) (line : String) :
    Except PyError (Finset String) := do
  if isFstabComment line then pure acc
  else
    let array := pySplit line
    if 2 ≤ array.length then do
      let a0 ← pyIdx array 0
      if a0 ∈ ignore_words then pure acc
      else do
        let a2 ← pyIdx array 2
        if a2 ≠ "swap" then do
          let a1 ← pyIdx array 1
          pure (insert a1 acc)
        else pure acc
    else pure acc

/-- `get_mount_points` over the lines of `/etc/fstab` (`none`: the file is
absent, and the `FileNotFoundError` branch returns the empty set). -/
def get_mount_points (fstab : Option (List String)) :
    Except PyError (Finset String) :=
  match fstab with
  | none => .ok ∅
  | some lines => lines.foldlM mountPointsStep ∅

/-- Python dict assignment `d[k] = v` on an association list: replaces any
existing binding for `k`. -/
def dictInsert (d : List (String × α)) (k : String) (v : α) :
    List (String × α) :=
  (d.filter (fun kv => kv.1 ≠ k)) ++ [(k, v)]

/-- A parsed `df -h` row: used percent and available space. -/
structure DfEntry where
  usePerc : Int
  available : String
  deriving DecidableEq, Repr

/-- Loop body of `get_disk_space` (lines 276-303) for one `df -h` output
line. The line is split; `array[5]` is read unconditionally (possibly
raising `IndexError`); on a monitored, non-excluded mount point,
`int(array[4][:-1])` may raise `ValueError`. -/
def diskSpaceStep (mount_points exclude : Finset String)
    (results : List (String × DfEntry)) (line : String) :
    Except PyError (List (String × DfEntry)) := do
  let array := pySplit line
  let a5 ← pyIdx array 5
  if a5 ∈ mount_points ∧ a5 ∉ exclude then do
    let a4 ← pyIdx array 4
    let usePerc ← pyIntE ⟨a4.toList.dropLast⟩
    let a3 ← pyIdx array 3
    pure (dictInsert results a5 ⟨usePerc, a3⟩)
  else pure results

/-- `get_disk_space` over the lines of `df -h` output (`none`: the tool is
absent). The `type(_mount_points) is set` gate is always satisfied in this
typed model. -/
def get_disk_space (mount_points exclude : Finset String)
    (df : Option (List String)) : Except PyError (List (String × DfEntry)) :=
  match df with
  | none => .ok []
  | some lines => lines.foldlM (diskSpaceStep mount_points exclude) []

/-- Loop body of `get_listening_ports` (lines 329-356) for one
`netstat -nlp` output line. `array[0]` and `array[3]` are read
unconditionally; the condition `proto in ('tcp','tcp6') and
array[5].startswith('LISTEN') or proto in ('udp','udp6')` follows Python's
short-circuit evaluation, so `array[5]` is read only for tcp/tcp6 lines. -/
def listeningStep (acc : Finset (Int × Option Protocol)) (line : String) :
    Except PyError (Finset (Int × Option Protocol)) := do
  let array := pySplit line
  let proto ← pyIdx array 0
  let a3 ← pyIdx array 3
  let current_port : String := ⟨(splitChar ':' a3.toList).getLastD []⟩
  let cond ←
    if proto == "tcp" || proto == "tcp6" then do
      let a5 ← pyIdx array 5
      if pyStartsWith a5 "LISTEN" then pure true
      else pure (proto == "udp" || proto == "udp6")
    else pure (proto == "udp" || proto == "udp6")
  if cond then do
    let port ← pyIntE current_port
    pure (insert (port, Protocol.from_value proto) acc)
  else pure acc

/-- `get_listening_ports` over the lines of `netstat -nlp` output (`none`:
the tool is absent). -/
def get_listening_ports (netstat : Option (List String)) :
    Except PyError (Finset (Int × Option Protocol)) :=
  match netstat with
  | none => .ok ∅
  | some lines => lines.foldlM listeningStep ∅

/-- Memory counters read from `/proc/meminfo` (the seven retained keys), in
KiB; the claims below concern snapshots where all seven keys are present. -/
structure MemInfo where
  MemFree : Nat
  MemTotal : Nat
  SwapFree : Nat
  SwapTotal : Nat
  Buffers : Nat
  Cached : Nat
  SReclaimable : Nat
  deriving DecidableEq, Repr

/-- `mem_perc = int(100 - 100 * MemFree / MemTotal)` (line 526), with `/`
the exact value of Python's float division modelled in `ℚ`. -/
def mem_perc (m : MemInfo) : Int :=
  pyIntQ (100 - 100 * (m.MemFree : ℚ) / (m.MemTotal : ℚ))

/-- `swap_perc` (lines 529-534): the placeholder string `'---'` when
`SwapTotal` is zero, else `int(100 - 100 * SwapFree / SwapTotal)`. -/
def swap_perc (m : MemInfo) : IntOrStr :=
  if m.SwapTotal = 0 then .str "---"
  else .int (pyIntQ (100 - 100 * (m.SwapFree : ℚ) / (m.SwapTotal : ℚ)))

/-- `buffers_perc = int(100 * Buffers / MemTotal)` (line 537). -/
def buffers_perc (m : MemInfo) : Int :=
  pyIntQ (100 * (m.Buffers : ℚ) / (m.MemTotal : ℚ))

/-- `cached_perc = int(100 * Cached / MemTotal)` (line 539). -/
def cached_perc (m : MemInfo) : Int :=
  pyIntQ (100 * (m.Cached : ℚ) / (m.MemTotal : ℚ))

/-- `reclaimable_perc = int(100 * SReclaimable / MemTotal)` (line 541). -/
def reclaimable_perc (m : MemInfo) : Int :=
  pyIntQ (100 * (m.SReclaimable : ℚ) / (m.MemTotal : ℚ))

/-- The memory status rollup (lines 543-550) with Python's short-circuit
`or`: each comparison against `swap_perc` goes through `pyGe` and raises
`TypeError` when `swap_perc` is the string placeholder. -/
def memory_status_color (mp : Int) (sp : IntOrStr) (bp cp : Int)
    (MEM_WARNING MEM_CRITICAL SWAP_WARNING SWAP_CRITICAL : Int) :
    Except PyError Color := do
  if MEM_CRITICAL ≤ mp then pure .red
  else if (← pyGe sp SWAP_CRITICAL) then pure .red
  else if MEM_CRITICAL ≤ bp then pure .red
  else if MEM_CRITICAL ≤ cp then pure .red
  else if MEM_WARNING ≤ mp then pure .orange
  else if (← pyGe sp SWAP_WARNING) then pure .orange
  else if MEM_WARNING ≤ bp then pure .orange
  else if MEM_WARNING ≤ cp then pure .orange
  else pure .green

/-- The memory block of the main program (lines 525-562): derives the
percentages from the meminfo snapshot, computes `memory_status_color`, then
the five `add_memory_row` colors (Memory, Swap, Buffers, Cached,
Reclaimable) in source order. -/
def memoryBlock (m : MemInfo) (MW MC SW SC : Int) :
    Except PyError (Color × List Color) := do
  let mp := mem_perc m
  let sp := swap_perc m
  let bp := buffers_perc m
  let cp := cached_perc m
  let status ← memory_status_color mp sp bp cp MW MC SW SC
  let r1 ← rowColorE MW MC (.int mp)
  let r2 ← rowColorE SW SC sp
  let r3 ← rowColorE MW MC (.int bp)
  let r4 ← rowColorE MW MC (.int cp)
  let r5 ← rowColorE MW MC (.int (reclaimable_perc m))
  pure (status, [r1, r2, r3, r4, r5])

/-- The disk status rollup (lines 508-515): starts green; a mount at or
above critical forces red; one at or above warning turns a non-red status
orange. -/
def disk_status_color (percs : List Int) (warn crit : Int) : Color :=
  percs.foldl
    (fun c p =>
      if crit ≤ p then .red
      else if warn ≤ p ∧ c ≠ .red then .orange
      else c)
    .green

/-- Modelled from the spec side for comparison: the worst severity across
the reported mount points' used-percent classifications, `normal` when no
mount points are reported. -/
def overallDiskSev (percs : List Int) (warn crit : Int) : Sev :=
  percs.foldl (fun a p => sevMax a (classify p warn crit)) .normal

/-- Storage of one numeric setting (sections `display`/`threshold`, lines
98-104): `int(text.strip())`, with a `ValueError` stored as Python `None`
(`Option.none`), never as zero. -/
def storeNumeric (raw : String) : Option Int :=
  pyInt? ⟨pyStrip raw.toList⟩

/-- Python truthiness fallback `x or d` for an optional integer `x`
(`None` and `0` are the falsy cases). -/
def pyOrInt (x : Option Int) (d : Int) : Int :=
  match x with
  | none => d
  | some v => if v = 0 then d else v

/-- The threshold consumer `config.get(key, default) or default`
(lines 470-478): `stored = none` models an absent key, `some none` a key
stored as Python `None`. -/
def getThreshold (stored : Option (Option Int)) (d : Int) : Int :=
  pyOrInt (stored.getD (some d)) d

/-- Token cleanup for comma-separated settings (lines 109-110 and 116):
split on commas, strip each token, keep only nonempty tokens. -/
def cleanTokens (s : String) : List String :=
  (((splitChar ',' s.toList).map pyStrip).map
      (fun w => (⟨w⟩ : String))).filter (fun t => t ≠ "")

/-- `set(map(int, tokens))` under `try/except ValueError` (lines 115-119):
the whole list collapses to the empty set when any token fails to parse. -/
def parsePortsTokens (toks : List String) : Finset Int :=
  match toks.mapM pyInt? with
  | some vs => vs.toFinset
  | none => ∅

/-- A full port-list setting for one key of the `ports` section: clean the
tokens, then parse all-or-nothing. -/
def parsePortList (s : String) : Finset Int :=
  parsePortsTokens (cleanTokens s)

/-- `ports_on_error = _ports_to_monitor - listening_ports` (line 373). -/
def ports_on_error (M L : Finset Port) : Finset Port :=
  M \ L

/-- `ports_on_success = _ports_to_monitor - ports_on_error` (line 374). -/
def ports_on_success (M L : Finset Port) : Finset Port :=
  M \ ports_on_error M L

/-- `get_checked_ports` (lines 359-381) on a monitored set `M` and the
observed listening set `L`: the result dict maps each port of
`ports_on_error` to `False` and each port of `ports_on_success` to `True`
(a dict over disjoint key sets, modelled as its set of entries). -/
def get_checked_ports (M L : Finset Port) : Finset (Port × Bool) :=
  (ports_on_error M L).image (fun p => (p, false)) ∪
    (ports_on_success M L).image (fun p => (p, true))

/-- Liveness of one service from the outcome of `pgrep --exact name`
(lines 397-404): `none` models `FileNotFoundError` or `CalledProcessError`
(result `False`); on success the result is the length test
`len(output.strip().split newline) > 0`, which holds for every output. -/
def serviceAlive (pgrepOut : Option String) : Bool :=
  match pgrepOut with
  | some out => decide (0 < (splitChar '\n' (pyStrip out.toList)).length)
  | none => false

/-- `get_checked_services` (lines 384-406): the argument only passes the
`type(...) is set` gate (`none` models a non-set argument and yields the
empty dict); the loop runs over the module-level global
`services_to_monitor`, querying `pgrep` for each of its elements. -/
def get_checked_services (services_to_monitor : Finset String)
    (arg : Option (Finset String)) (pgrep : String → Option String) :
    Finset (String × Bool) :=
  match arg with
  | none => ∅
  | some _ =>
      services_to_monitor.image (fun s => (s, serviceAlive (pgrep s)))

/-- Safe fstab line for `get_mount_points`: a comment, or a field count
other than exactly 2 (with exactly 2 fields and a device outside the ignore
list, the source reads `array[2]` and raises `IndexError`). -/
def fstabLineSafe (line : String) : Bool :=
  isFstabComment line || (pySplit line).length ≠ 2

/-- Safe df output line for `get_disk_space`: at least 6 fields, and when
the mount-point field is monitored and not excluded, the used-percent field
parses as an integer after dropping its last character. -/
def dfLineSafe (mount_points exclude : Finset String) (line : String) : Bool :=
  let a := pySplit line
  6 ≤ a.length &&
    (!(a.getD 5 "" ∈ mount_points && a.getD 5 "" ∉ exclude)
      || (pyInt? ⟨(a.getD 4 "").toList.dropLast⟩).isSome)

/-- The add condition of `get_listening_ports` on a split line, after
short-circuit evaluation. -/
def netstatCond (a : List String) : Bool :=
  if a.getD 0 "" == "tcp" || a.getD 0 "" == "tcp6" then
    pyStartsWith (a.getD 5 "") "LISTEN"
  else a.getD 0 "" == "udp" || a.getD 0 "" == "udp6"

/-- Safe netstat output line for `get_listening_ports`: at least 4 fields,
at least 6 fields on a tcp/tcp6 line, and a parseable port number on lines
that satisfy the add condition. -/
def netstatLineSafe (line : String) : Bool :=
  let a := pySplit line
  4 ≤ a.length &&
    (!(a.getD 0 "" == "tcp" || a.getD 0 "" == "tcp6") || 6 ≤ a.length) &&
    (!netstatCond a ||
      (pyInt? ⟨(splitChar ':' (a.getD 3 "").toList).getLastD []⟩).isSome)

/-- Truncation toward zero of an integer-over-natural quotient is `Int.tdiv`. -/
theorem pyIntQ_intCast_div_natCast (a : ℤ) (b : ℕ) (hb : 0 < b) :
    pyIntQ ((a : ℚ) / (b : ℚ)) = a.tdiv b := by
  have hbq : (0 : ℚ) < (b : ℚ) := by exact_mod_cast hb
  have hceil : ∀ q : ℚ, ⌈q⌉ = -⌊-q⌋ := fun q => rfl
  rcases le_or_lt 0 a with ha | ha
  · have hq : (0 : ℚ) ≤ (a : ℚ) / (b : ℚ) :=
      div_nonneg (by exact_mod_cast ha) hbq.le
    rw [pyIntQ, if_pos hq, Rat.floor_intCast_div_natCast,
      Int.tdiv_eq_ediv ha (by exact_mod_cast hb.le)]
  · have hq : (a : ℚ) / (b : ℚ) < 0 :=
      div_neg_of_neg_of_pos (by exact_mod_cast ha) hbq
    rw [pyIntQ, if_neg (not_le.mpr hq), hceil]
    have hneg : -((a : ℚ) / (b : ℚ)) = (((-a : ℤ) : ℚ) / (b : ℚ)) := by
      push_cast
      ring
    rw [hneg, Rat.floor_intCast_div_natCast,
      ← Int.tdiv_eq_ediv (by omega) (by exact_mod_cast hb.le), Int.neg_tdiv,
      neg_neg]

/-- C3: the classification of an integer percent `v` against thresholds
`warn`/`crit` is critical iff `v ≥ crit`, warning iff `warn ≤ v < crit`,
else normal (both thresholds inclusive lower bounds), and the threshold
test shared by the disk, memory, swap, buffers and cached rows
(`rowColor`, with `rowColorE` its dynamic form used by `add_memory_row`)
renders exactly this classification. -/
theorem C3_classify_thresholds (v warn crit : Int) :
    (classify v warn crit = .critical ↔ crit ≤ v) ∧
    (classify v warn crit = .warning ↔ warn ≤ v ∧ v < crit) ∧
    (classify v warn crit = .normal ↔ v < warn ∧ v < crit) ∧
    rowColor warn crit v = colorOfSev (classify v warn crit) ∧
    rowColorE warn crit (.int v) = .ok (rowColor warn crit v) := by
  refine ⟨?_, ?_, ?_, ?_, ?_⟩ <;>
    simp only [classify, rowColor, rowColorE, colorOfSev, pyGe, bind, pure,
      Except.bind, Except.pure] <;>
    split_ifs <;> simp_all

/-- The dynamic threshold test on an integer percent always succeeds and
agrees with `rowColor`. -/
theorem rowColorE_int (warn crit v : Int) :
    rowColorE warn crit (.int v) = .ok (rowColor warn crit v) := by
  simp only [rowColorE, pyGe, rowColor, bind, Except.bind, pure, Except.pure]
  split_ifs <;> simp_all

/-- With zero total swap the memory block always raises `TypeError`: either
the status rollup or the swap row compares the `'---'` placeholder string
with an integer threshold. -/
theorem memoryBlock_swap_zero_error (m : MemInfo) (MW MC SW SC : Int)
    (h : m.SwapTotal = 0) :
    memoryBlock m MW MC SW SC = .error .typeError := by
  have hsp : swap_perc m = .str "---" := by rw [swap_perc, if_pos h]
  simp only [memoryBlock, memory_status_color, hsp, pyGe, rowColorE_int,
    bind, Except.bind, pure, Except.pure]
  split_ifs <;> rfl

/-- C1: with `SwapTotal = 0` the swap measurement is the `'---'` placeholder
as specified, but severity classification does not complete: whether memory
is below critical (the rollup compares `'---'` with the swap threshold) or
at/above critical (the swap `add_memory_row` does), the str/int comparison
raises `TypeError` instead of treating swap as normal. -/
theorem C1_swaptotal_zero_typeerror :
    swap_perc ⟨500, 1000, 0, 0, 10, 10, 0⟩ = .str "---" ∧
    memoryBlock ⟨500, 1000, 0, 0, 10, 10, 0⟩ 80 90 10 20 =
      .error .typeError ∧
    memoryBlock ⟨0, 1000, 0, 0, 10, 10, 0⟩ 80 90 10 20 =
      .error .typeError :=
  ⟨rfl, memoryBlock_swap_zero_error _ 80 90 10 20 rfl,
    memoryBlock_swap_zero_error _ 80 90 10 20 rfl⟩

/-- C9: for a snapshot with `MemTotal > 0`, the used-memory percent is
`100 * (MemTotal - MemFree) / MemTotal` truncated toward zero, and the same
truncation gives the buffers and cached percents. -/
theorem C9_percent_truncation (m : MemInfo) (h : 0 < m.MemTotal) :
    mem_perc m = (100 * ((m.MemTotal : ℤ) - m.MemFree)).tdiv m.MemTotal ∧
    buffers_perc m = (100 * (m.Buffers : ℤ)).tdiv m.MemTotal ∧
    cached_perc m = (100 * (m.Cached : ℤ)).tdiv m.MemTotal := by
  have ht : ((m.MemTotal : ℚ)) ≠ 0 := Nat.cast_ne_zero.mpr h.ne'
  refine ⟨?_, ?_, ?_⟩
  · have he : (100 : ℚ) - 100 * (m.MemFree : ℚ) / (m.MemTotal : ℚ)
        = (((100 * ((m.MemTotal : ℤ) - m.MemFree)) : ℤ) : ℚ) / (m.MemTotal : ℚ) := by
      field_simp
      ring
    rw [mem_perc, he, pyIntQ_intCast_div_natCast _ _ h]
  · have he : (100 : ℚ) * (m.Buffers : ℚ) / (m.MemTotal : ℚ)
        = (((100 * (m.Buffers : ℤ)) : ℤ) : ℚ) / (m.MemTotal : ℚ) := by
      push_cast
      ring
    rw [buffers_perc, he, pyIntQ_intCast_div_natCast _ _ h]
  · have he : (100 : ℚ) * (m.Cached : ℚ) / (m.MemTotal : ℚ)
        = (((100 * (m.Cached : ℤ)) : ℤ) : ℚ) / (m.MemTotal : ℚ) := by
      push_cast
      ring
    rw [cached_perc, he, pyIntQ_intCast_div_natCast _ _ h]

/-- C9 witness: `MemTotal = 1000`, `MemFree = 250` gives used% `= 75`. -/
theorem C9_percent_truncation_witness :
    0 < (1000 : ℕ) ∧ mem_perc ⟨250, 1000, 0, 0, 0, 0, 0⟩ = 75 := by
  have h := C9_percent_truncation ⟨250, 1000, 0, 0, 0, 0, 0⟩ (by decide)
  exact ⟨by decide, by rw [h.1]; decide⟩

/-- One step of the disk rollup fold agrees with taking the worst severity. -/
theorem disk_rollup_step (warn crit p : Int) (s : Sev) :
    (if crit ≤ p then Color.red
      else if warn ≤ p ∧ colorOfSev s ≠ Color.red then Color.orange
      else colorOfSev s)
    = colorOfSev (sevMax s (classify p warn crit)) := by
  cases s <;> simp [classify, sevMax, sevRank, colorOfSev] <;> split_ifs <;>
    simp_all

/-- The disk rollup fold from any starting severity computes the worst
severity seen so far. -/
theorem disk_rollup_fold (warn crit : Int) (percs : List Int) :
    ∀ s : Sev,
      percs.foldl
        (fun c p =>
          if crit ≤ p then Color.red
          else if warn ≤ p ∧ c ≠ Color.red then Color.orange
          else c)
        (colorOfSev s)
      = colorOfSev
          (percs.foldl (fun a p => sevMax a (classify p warn crit)) s) := by
  induction percs with
  | nil => intro s; rfl
  | cons p ps ih =>
      intro s
      simp only [List.foldl_cons, disk_rollup_step]
      exact ih _

/-- C5: the overall disk status equals the worst severity over all reported
mount points' used-percent classifications, is normal (green) when no mount
point is reported, and mounts at 95% and 50% with thresholds 80/90 roll up
to critical (red). -/
theorem C5_disk_rollup_max (percs : List Int) (warn crit : Int) :
    disk_status_color percs warn crit
      = colorOfSev (overallDiskSev percs warn crit) ∧
    disk_status_color [] warn crit = colorOfSev .normal ∧
    disk_status_color [95, 50] 80 90 = colorOfSev .critical := by
  refine ⟨?_, rfl, rfl⟩
  exact disk_rollup_fold warn crit percs .normal

/-- C6: the checked-ports dict has exactly the monitored pairs as keys, maps
each pair to true iff it is observed listening, and an empty monitored set
yields the empty dict for every observed set. -/
theorem C6_checked_ports (M L : Finset Port) :
    (get_checked_ports M L).image Prod.fst = M ∧
    (∀ p b, (p, b) ∈ get_checked_ports M L ↔ p ∈ M ∧ b = decide (p ∈ L)) ∧
    get_checked_ports ∅ L = ∅ := by
  refine ⟨?_, ?_, ?_⟩
  · simp only [get_checked_ports, ports_on_success, ports_on_error,
      Finset.sdiff_sdiff_self_left, Finset.image_union, Finset.image_image]
    simp [Function.comp_def, Finset.sdiff_union_inter]
  · intro p b
    simp only [get_checked_ports, ports_on_success, ports_on_error,
      Finset.sdiff_sdiff_self_left, Finset.mem_union, Finset.mem_image,
      Finset.mem_sdiff, Finset.mem_inter, Prod.mk.injEq]
    constructor
    · rintro (⟨q, ⟨hqM, hqL⟩, rfl, rfl⟩ | ⟨q, ⟨hqM, hqL⟩, rfl, rfl⟩) <;>
        simp_all
    · rintro ⟨hM, rfl⟩
      by_cases hL : p ∈ L
      · right; exact ⟨p, ⟨hM, hL⟩, rfl, by simp [hL]⟩
      · left; exact ⟨p, ⟨hM, hL⟩, rfl, by simp [hL]⟩
  · simp [get_checked_ports, ports_on_error, ports_on_success]

/-- C7: Protocol is a closed enumeration whose equality, ordering and
hashing are determined by the backing string value; a (port, protocol)
pair's identity requires both components to match, and sets of pairs
deduplicate exactly the pairs with equal port and equal protocol. -/
theorem C7_protocol_identity :
    (∀ a b : Protocol, a = b ↔ a.value = b.value) ∧
    (∀ a b : Protocol, a.ltB b = true ↔ a.value.toList < b.value.toList) ∧
    (∀ a b : Protocol, a = b ∨ a.ltB b = true ∨ b.ltB a = true) ∧
    (∀ a b : Protocol, a.value = b.value → a.hashVal = b.hashVal) ∧
    (((80 : Int), Protocol.tcp) ≠ ((80 : Int), Protocol.udp)) ∧
    (∀ p q : Port, p = q ↔ p.1 = q.1 ∧ p.2 = q.2) ∧
    ({((80 : Int), Protocol.tcp), ((80 : Int), Protocol.tcp)} : Finset Port)
      = {((80 : Int), Protocol.tcp)} ∧
    ({((80 : Int), Protocol.tcp), ((80 : Int), Protocol.udp)} : Finset Port).card
      = 2 := by
  refine ⟨?_, ?_, ?_, ?_, by decide, ?_, by decide, by decide⟩
  · intro a b
    cases a <;> cases b <;> simp [Protocol.value]
  · intro a b
    rw [Protocol.ltB, decide_eq_true_eq]
  · intro a b
    cases a <;> cases b <;> decide
  · intro a b h
    rw [Protocol.hashVal, Protocol.hashVal, h]
  · intro p q
    exact Prod.ext_iff
/-- C7 witness: the value-determined-hash implication at a concrete pair,
and the ordering read off the string values. -/
theorem C7_protocol_identity_witness :
    Protocol.tcp.hashVal = Protocol.tcp.hashVal ∧
    (Protocol.tcp.ltB Protocol.udp = true ↔
      Protocol.tcp.value.toList < Protocol.udp.value.toList) :=
  ⟨C7_protocol_identity.2.2.2.1 Protocol.tcp Protocol.tcp rfl,
    C7_protocol_identity.2.1 Protocol.tcp Protocol.udp⟩

/-- C10: `get_checked_services` ignores the content of its set argument:
for a fixed global `services_to_monitor` and fixed probe outcomes, any two
set arguments give the same result, keyed exactly by the global's elements;
a non-set argument yields the empty result. -/
theorem C10_services_use_global (G S1 S2 : Finset String)
    (pgrep : String → Option String) :
    get_checked_services G (some S1) pgrep
      = get_checked_services G (some S2) pgrep ∧
    (get_checked_services G (some S1) pgrep).image Prod.fst = G ∧
    get_checked_services G none pgrep = ∅ := by
  refine ⟨rfl, ?_, rfl⟩
  simp [get_checked_services, Finset.image_image, Function.comp_def]

/-- C4 counterexample: the text `"0"` parses successfully to the in-range
integer 0, yet the consuming code substitutes the default 80 instead of the
configured 0 (`config.get(key, 80) or 80` treats 0 as falsy). -/
theorem C4_counterexample :
    storeNumeric "0" = some 0 ∧
    getThreshold (some (storeNumeric "0")) 80 = 80 ∧ (80 : Int) ≠ 0 :=
  ⟨by decide, by decide, by decide⟩

/-- C4 amended: a numeric setting that fails to parse is stored as the
explicit `None` marker (not zero); the consumer substitutes the default
when the setting is unset or absent, and also when it is zero; a setting
that parses to a nonzero integer is used as configured. -/
theorem C4_numeric_setting_fallback (raw : String) (d : Int) :
    (pyInt? ⟨pyStrip raw.toList⟩ = none →
      storeNumeric raw = none ∧
        getThreshold (some (storeNumeric raw)) d = d) ∧
    getThreshold none d = d ∧
    getThreshold (some none) d = d ∧
    (∀ v : Int, storeNumeric raw = some v → v ≠ 0 →
      getThreshold (some (storeNumeric raw)) d = v) ∧
    getThreshold (some (some 0)) d = d := by
  refine ⟨?_, by simp [getThreshold, pyOrInt], rfl, ?_, ?_⟩
  · intro h
    have hs : storeNumeric raw = none := by rw [storeNumeric, h]
    rw [hs]
    exact ⟨rfl, rfl⟩
  · intro v hv hne
    rw [hv]
    simp [getThreshold, pyOrInt, hne]
  · simp [getThreshold, pyOrInt]

/-- C4 amended witness: `"abc"` fails to parse and falls back to the
default 80; `"42"` parses to nonzero 42 and is used as configured. -/
theorem C4_numeric_setting_fallback_witness :
    (storeNumeric "abc" = none ∧
      getThreshold (some (storeNumeric "abc")) 80 = 80) ∧
    getThreshold (some (storeNumeric "42")) 80 = 42 :=
  ⟨(C4_numeric_setting_fallback "abc" 80).1 (by decide),
    (C4_numeric_setting_fallback "42" 80).2.2.2.1 42 (by decide) (by decide)⟩

/-- A `mapM` over `Option` fails whenever one element fails. -/
theorem mapM_eq_none_of_mem {α β : Type} (f : α → Option β) :
    ∀ (l : List α) (t : α), t ∈ l → f t = none → l.mapM f = none := by
  intro l
  induction l with
  | nil => intro t ht; cases ht
  | cons x xs ih =>
      intro t ht hnone
      rw [List.mapM_cons]
      rcases List.mem_cons.mp ht with rfl | hmem
      · rw [hnone]; rfl
      · cases hfx : f x with
        | none => rfl
        | some y =>
            rw [ih t hmem hnone]
            rfl

/-- C8: empty tokens of a comma-separated port list are discarded; if any
remaining token fails to parse as an integer the entire list for that key
becomes the empty set (fail closed, never a partial set); if every token
parses, the full parsed set is used. -/
theorem C8_port_list_fail_closed (s : String) :
    ("" ∉ cleanTokens s) ∧
    (∀ toks : List String, (∃ t ∈ toks, pyInt? t = none) →
      parsePortsTokens toks = ∅) ∧
    (∀ (toks : List String) (vs : List Int), toks.mapM pyInt? = some vs →
      parsePortsTokens toks = vs.toFinset) := by
  refine ⟨?_, ?_, ?_⟩
  · simp [cleanTokens]
  · rintro toks ⟨t, ht, hnone⟩
    rw [parsePortsTokens, mapM_eq_none_of_mem pyInt? toks t ht hnone]
  · intro toks vs h
    rw [parsePortsTokens, h]

/-- C8 witness: `"80, ,abc,90"` has no empty token after cleanup; the token
list with the unparseable `"abc"` collapses to the empty set; an
all-numeric token list parses to the full set. -/
theorem C8_port_list_fail_closed_witness :
    ("" ∉ cleanTokens "80, ,abc,90") ∧
    parsePortsTokens ["80", "abc"] = ∅ ∧
    parsePortsTokens ["80", "90"] = ([80, 90] : List Int).toFinset :=
  ⟨(C8_port_list_fail_closed "80, ,abc,90").1,
    (C8_port_list_fail_closed "x").2.1 ["80", "abc"]
      ⟨"abc", by decide, by decide⟩,
    (C8_port_list_fail_closed "x").2.2 ["80", "90"] [80, 90] (by decide)⟩

/-- Indexing within bounds succeeds and returns the `getD` value. -/
theorem pyIdx_eq_ok_getD {α : Type} (l : List α) (i : Nat) (d : α)
    (h : i < l.length) : pyIdx l i = .ok (l.getD i d) := by
  rw [pyIdx, List.getElem?_eq_getElem h, List.getD_eq_getElem l d h]

/-- Sequencing after a successful `Except` computation. -/
theorem exceptOkBind {ε α β : Type} (a : α) (f : α → Except ε β) :
    (Except.ok a >>= f) = f a := rfl

/-- Sequencing after a pure `Except` computation. -/
theorem exceptPureBind {ε α β : Type} (a : α) (f : α → Except ε β) :
    ((pure a : Except ε α) >>= f) = f a := rfl

/-- A `foldlM` over `Except` succeeds when every step succeeds from every
accumulator. -/
theorem foldlM_ok {ε α β : Type} (f : β → α → Except ε β) :
    ∀ (l : List α) (init : β),
      (∀ a ∈ l, ∀ acc, ∃ r, f acc a = .ok r) →
      ∃ r, l.foldlM f init = .ok r := by
  intro l
  induction l with
  | nil => intro init _; exact ⟨init, rfl⟩
  | cons x xs ih =>
      intro init h
      obtain ⟨r1, hr1⟩ := h x (List.mem_cons_self x xs) init
      rw [List.foldlM_cons, hr1, exceptOkBind]
      exact ih r1 (fun a ha acc => h a (List.mem_cons_of_mem _ ha) acc)

/-- A safe fstab line never makes the mount-point loop body raise. -/
theorem mountPointsStep_ok (line : String)
    (h : fstabLineSafe line = true) (acc : Finset String) :
    ∃ r, mountPointsStep acc line = .ok r := by
  have h' : isFstabComment line = true ∨ ¬((pySplit line).length = 2) := by
    simpa [fstabLineSafe] using h
  by_cases hc : isFstabComment line = true
  · exact ⟨acc, by simp [mountPointsStep, hc]; rfl⟩
  · have hlen : (pySplit line).length ≠ 2 := h'.resolve_left hc
    rw [Bool.not_eq_true] at hc
    by_cases h2 : 2 ≤ (pySplit line).length
    · have h3 : 2 < (pySplit line).length := by omega
      simp only [mountPointsStep, hc, Bool.false_eq_true, if_false, h2,
        if_true, pyIdx_eq_ok_getD (pySplit line) 0 "" (by omega),
        pyIdx_eq_ok_getD (pySplit line) 2 "" h3,
        pyIdx_eq_ok_getD (pySplit line) 1 "" (by omega),
        exceptOkBind]
      split_ifs <;> exact ⟨_, rfl⟩
    · exact ⟨acc, by simp [mountPointsStep, hc, h2]; rfl⟩

/-- A safe df line never makes the disk-space loop body raise. -/
theorem diskSpaceStep_ok (mp ex : Finset String) (line : String)
    (h : dfLineSafe mp ex line = true) (acc : List (String × DfEntry)) :
    ∃ r, diskSpaceStep mp ex acc line = .ok r := by
  have h6 : 6 ≤ (pySplit line).length := by
    simp only [dfLineSafe, Bool.and_eq_true, decide_eq_true_eq] at h
    exact h.1
  by_cases hin : (pySplit line).getD 5 "" ∈ mp ∧ (pySplit line).getD 5 "" ∉ ex
  · have hsome : (pyInt?
        ⟨((pySplit line).getD 4 "").toList.dropLast⟩).isSome = true := by
      simp only [dfLineSafe, Bool.and_eq_true, Bool.or_eq_true,
        Bool.not_eq_true', decide_eq_true_eq] at h
      rcases h.2 with hf | hs
      · exfalso
        rcases Bool.and_eq_false_iff.mp hf with h1 | h1 <;>
          simp only [decide_eq_false_iff_not, not_not] at h1 <;> tauto
      · exact hs
    obtain ⟨v, hv⟩ := Option.isSome_iff_exists.mp hsome
    refine ⟨dictInsert acc ((pySplit line).getD 5 "")
      ⟨v, (pySplit line).getD 3 ""⟩, ?_⟩
    simp only [diskSpaceStep, pyIdx_eq_ok_getD (pySplit line) 5 "" (by omega),
      pyIdx_eq_ok_getD (pySplit line) 4 "" (by omega),
      pyIdx_eq_ok_getD (pySplit line) 3 "" (by omega),
      exceptOkBind, if_pos hin, pyIntE, hv]
    rfl
  · refine ⟨acc, ?_⟩
    simp only [diskSpaceStep, pyIdx_eq_ok_getD (pySplit line) 5 "" (by omega),
      exceptOkBind, if_neg hin]
    rfl

/-- A safe netstat line never makes the listening-ports loop body raise. -/
theorem listeningStep_ok (line : String)
    (h : netstatLineSafe line = true) (acc : Finset (Int × Option Protocol)) :
    ∃ r, listeningStep acc line = .ok r := by
  simp only [netstatLineSafe, Bool.and_eq_true, Bool.or_eq_true,
    Bool.not_eq_true', decide_eq_true_eq] at h
  obtain ⟨⟨h4, htcp⟩, hcond⟩ := h
  have h3 : 3 < (pySplit line).length := by omega
  by_cases htcpish : ((pySplit line).getD 0 "" == "tcp"
      || (pySplit line).getD 0 "" == "tcp6") = true
  · have h6 : 5 < (pySplit line).length := by
      rcases htcp with hfalse | h6
      · rw [htcpish] at hfalse; cases hfalse
      · omega
    have hnc : netstatCond (pySplit line)
        = pyStartsWith ((pySplit line).getD 5 "") "LISTEN" := by
      rw [netstatCond, if_pos htcpish]
    by_cases hsw : pyStartsWith ((pySplit line).getD 5 "") "LISTEN" = true
    · have hsome : (pyInt? ⟨(splitChar ':'
          ((pySplit line).getD 3 "").toList).getLastD []⟩).isSome = true := by
        rcases hcond with hf | hs
        · rw [hnc, hsw] at hf; cases hf
        · exact hs
      obtain ⟨v, hv⟩ := Option.isSome_iff_exists.mp hsome
      refine ⟨insert (v, Protocol.from_value ((pySplit line).getD 0 "")) acc, ?_⟩
      simp only [listeningStep, pyIdx_eq_ok_getD (pySplit line) 0 "" (by omega),
        pyIdx_eq_ok_getD (pySplit line) 3 "" h3,
        pyIdx_eq_ok_getD (pySplit line) 5 "" h6,
        exceptOkBind, exceptPureBind, htcpish, if_true, hsw, pyIntE, hv]
      rfl
    · have hudp : ((pySplit line).getD 0 "" == "udp"
          || (pySplit line).getD 0 "" == "udp6") = false := by
        have h0 : (pySplit line).getD 0 "" = "tcp"
            ∨ (pySplit line).getD 0 "" = "tcp6" := by simpa using htcpish
        rcases h0 with h0 | h0 <;> rw [h0] <;> decide
      rw [Bool.not_eq_true] at hsw
      refine ⟨acc, ?_⟩
      simp only [listeningStep, pyIdx_eq_ok_getD (pySplit line) 0 "" (by omega),
        pyIdx_eq_ok_getD (pySplit line) 3 "" h3,
        pyIdx_eq_ok_getD (pySplit line) 5 "" h6,
        exceptOkBind, exceptPureBind, htcpish, if_true, hsw, hudp,
        Bool.false_eq_true, if_false]
      rfl
  · rw [Bool.not_eq_true] at htcpish
    by_cases hudp : ((pySplit line).getD 0 "" == "udp"
        || (pySplit line).getD 0 "" == "udp6") = true
    · have hnc : netstatCond (pySplit line) = true := by
        rw [netstatCond, if_neg (by rw [htcpish]; exact Bool.false_ne_true),
          hudp]
      have hsome : (pyInt? ⟨(splitChar ':'
          ((pySplit line).getD 3 "").toList).getLastD []⟩).isSome = true := by
        rcases hcond with hf | hs
        · rw [hnc] at hf; cases hf
        · exact hs
      obtain ⟨v, hv⟩ := Option.isSome_iff_exists.mp hsome
      refine ⟨insert (v, Protocol.from_value ((pySplit line).getD 0 "")) acc, ?_⟩
      simp only [listeningStep, pyIdx_eq_ok_getD (pySplit line) 0 "" (by omega),
        pyIdx_eq_ok_getD (pySplit line) 3 "" h3,
        exceptOkBind, exceptPureBind, htcpish, Bool.false_eq_true, if_false,
        hudp, if_true, pyIntE, hv]
      rfl
    · rw [Bool.not_eq_true] at hudp
      refine ⟨acc, ?_⟩
      simp only [listeningStep, pyIdx_eq_ok_getD (pySplit line) 0 "" (by omega),
        pyIdx_eq_ok_getD (pySplit line) 3 "" h3,
        exceptOkBind, exceptPureBind, htcpish, hudp, Bool.false_eq_true,
        if_false]
      rfl

/-- C2 counterexample: each probe has content it does not survive: an fstab
line with exactly two fields whose device is not ignored makes
`get_mount_points` read `array[2]` under a `len(array) >= 2` guard and
raise `IndexError`; an empty df or netstat output line raises `IndexError`
at the unconditional column reads. -/
theorem C2_counterexample :
    get_mount_points (some ["UUID=abc /mnt"]) = .error .indexError ∧
    get_disk_space ∅ ∅ (some [""]) = .error .indexError ∧
    get_listening_ports (some [""]) = .error .indexError :=
  ⟨by decide, by decide, by decide⟩

/-- C2 amended: the probes never raise when the probed file or tool is
absent (the `FileNotFoundError` branches), and return a value without
raising on any content whose lines are well-formed (`fstabLineSafe`,
`dfLineSafe`, `netstatLineSafe`); only malformed lines can raise. -/
theorem C2_probe_totality (fstab df netstat : List String)
    (mp ex : Finset String)
    (h1 : ∀ l ∈ fstab, fstabLineSafe l = true)
    (h2 : ∀ l ∈ df, dfLineSafe mp ex l = true)
    (h3 : ∀ l ∈ netstat, netstatLineSafe l = true) :
    (∃ r, get_mount_points (some fstab) = .ok r) ∧
    (∃ r, get_disk_space mp ex (some df) = .ok r) ∧
    (∃ r, get_listening_ports (some netstat) = .ok r) ∧
    get_mount_points none = .ok ∅ ∧
    get_disk_space mp ex none = .ok [] ∧
    get_listening_ports none = .ok ∅ := by
  refine ⟨?_, ?_, ?_, rfl, rfl, rfl⟩
  · exact foldlM_ok _ fstab ∅
      (fun l hl acc => mountPointsStep_ok l (h1 l hl) acc)
  · exact foldlM_ok _ df []
      (fun l hl acc => diskSpaceStep_ok mp ex l (h2 l hl) acc)
  · exact foldlM_ok _ netstat ∅
      (fun l hl acc => listeningStep_ok l (h3 l hl) acc)

/-- C2 amended witness: realistic fstab, df and netstat contents are
well-formed line by line, and all three probes return successfully. -/
theorem C2_probe_totality_witness :
    (∃ r, get_mount_points
      (some ["# static file system information",
             "/dev/sda1 /home ext4 defaults 0 1"]) = .ok r) ∧
    (∃ r, get_disk_space {"/home"} ∅
      (some ["Filesystem Size Used Avail Use% Mounted on",
             "/dev/sda1 20G 5G 15G 25% /home"]) = .ok r) ∧
    (∃ r, get_listening_ports
      (some ["tcp 0 0 0.0.0.0:80 0.0.0.0:* LISTEN 1/nginx",
             "udp 0 0 0.0.0.0:53 0.0.0.0:* 2/dns"]) = .ok r) ∧
    get_mount_points none = .ok ∅ ∧
    get_disk_space {"/home"} ∅ none = .ok [] ∧
    get_listening_ports none = .ok ∅ :=
  C2_probe_totality _ _ _ {"/home"} ∅ (by decide) (by decide) (by decide)
